import Mathlib

/-!
Verification of the book-exchange micro-service repository.

The sources embedded here:
- src/exchange-service/app.js : exchange-request lifecycle handlers
  (create / approve / complete / reject) over the exchange_requests table.
- src/books-service/app.js : book catalog handlers, in particular
  PUT /books/:id/status, with explicit accounting of pool.connect and
  client.release calls.
- src/auth-service/app.js : register / login / validate / delete-user,
  with the JWT library and bcrypt modelled abstractly.
- src/app.js : the legacy monolith prototype, in particular its
  POST /login handler whose failure bodies differ between the
  unknown-username and wrong-password branches.

Rows of SQL tables are lists of structures; a conditional UPDATE is a map
over the list together with the RETURNING rows; SERIAL ids are one more
than the maximum id present.
-/

namespace BookService

/-! ## Data model (CREATE TABLE statements of the three services) -/

/-- A row of exchange_requests (src/exchange-service/app.js, initDatabase). -/
structure ExchangeRequest where
  id : Nat
  book_id : Nat
  sender_id : Nat
  recipient_id : Nat
  status : String
  created_at : Nat
deriving Repr, DecidableEq

/-- A row of books (src/books-service/app.js, initDatabase). -/
structure Book where
  id : Nat
  title : String
  author : String
  owner_id : Nat
  status : String
  created_at : Nat
deriving Repr, DecidableEq

/-- A row of users (src/auth-service/app.js, initDatabase); profile fields
not read by any claim are omitted. -/
structure User where
  id : Nat
  username : String
  passwordHash : String
  email : String
deriving Repr, DecidableEq

/-- id SERIAL PRIMARY KEY: all rows of a table carry distinct ids. -/
def DistinctIds (db : List ExchangeRequest) : Prop :=
  db.Pairwise (fun a b => a.id ≠ b.id)

/-- id SERIAL PRIMARY KEY of the books table. -/
def DistinctBookIds (db : List Book) : Prop :=
  db.Pairwise (fun a b => a.id ≠ b.id)

/-- SERIAL id generation: the id assigned to a freshly inserted row. -/
def nextId (db : List ExchangeRequest) : Nat :=
  (db.foldl (fun m r => max m r.id) 0) + 1

/-! ## Exchange service handlers (src/exchange-service/app.js) -/

/-- Outcome of one exchange-service handler run: HTTP status, the JSON
body on success (the RETURNING row), the JSON error body, and the
socket events emitted. -/
structure ExchangeResult where
  httpStatus : Nat
  record : Option ExchangeRequest
  errorBody : Option String
  emitted : List String
deriving Repr, DecidableEq

/-- WHERE clause of the approve handler: id = $1 AND recipient_id = $2. -/
def approveCond (requestId callerId : Nat) (r : ExchangeRequest) : Bool :=
  r.id == requestId && r.recipient_id == callerId

/-- WHERE clause of the complete handler:
id = $1 AND (sender_id = $2 OR recipient_id = $2). -/
def completeCond (requestId callerId : Nat) (r : ExchangeRequest) : Bool :=
  r.id == requestId && (r.sender_id == callerId || r.recipient_id == callerId)

/-- WHERE clause of the reject handler: id = $1 AND recipient_id = $2. -/
def rejectCond (requestId callerId : Nat) (r : ExchangeRequest) : Bool :=
  r.id == requestId && r.recipient_id == callerId

/-- Common body of the three PUT transition handlers: run
UPDATE exchange_requests SET status = newStatus WHERE cond RETURNING *.
The match scrutinee is the list of RETURNING rows and the second
component of the result is the table after the update; on rowCount > 0
the handler responds 200 with rows[0] and emits the event, else it
responds 404 with the shared error body. -/
def exchangeTransition (cond : ExchangeRequest → Bool)
    (newStatus eventName : String) (db : List ExchangeRequest) :
    ExchangeResult × List ExchangeRequest :=
  match (db.filter cond).map (fun r => { r with status := newStatus }) with
  | r :: _ =>
      (⟨200, some r, none, [eventName]⟩,
       db.map fun x => if cond x then { x with status := newStatus } else x)
  | [] =>
      (⟨404, none, some "Request not found or unauthorized action", []⟩,
       db.map fun x => if cond x then { x with status := newStatus } else x)

/-- PUT /exchange-requests/:request_id/approve. -/
def approveRequest (db : List ExchangeRequest) (callerId requestId : Nat) :
    ExchangeResult × List ExchangeRequest :=
  exchangeTransition (approveCond requestId callerId) "approved"
    "exchange_approved" db

/-- PUT /exchange-requests/:request_id/complete. -/
def completeRequest (db : List ExchangeRequest) (callerId requestId : Nat) :
    ExchangeResult × List ExchangeRequest :=
  exchangeTransition (completeCond requestId callerId) "completed"
    "exchange_completed" db

/-- PUT /exchange-requests/:request_id/reject. -/
def rejectRequest (db : List ExchangeRequest) (callerId requestId : Nat) :
    ExchangeResult × List ExchangeRequest :=
  exchangeTransition (rejectCond requestId callerId) "rejected"
    "exchange_rejected" db

/-- POST /exchange-requests. The handler itself performs no checks, but
initDatabase declares FOREIGN KEY (book_id) REFERENCES books(id),
FOREIGN KEY (sender_id) REFERENCES users(id) and
FOREIGN KEY (recipient_id) REFERENCES users(id) in the shared database,
so the INSERT raises a foreign-key violation — caught by the handler as a
500 — whenever a reference dangles. On success the row is inserted with
the DEFAULT status "pending" and returned with 201. -/
def createRequest (books : List Book) (userIds : List Nat)
    (db : List ExchangeRequest) (callerId book_id recipient_id now : Nat) :
    ExchangeResult × List ExchangeRequest :=
  if (∃ b ∈ books, b.id = book_id) ∧ callerId ∈ userIds ∧ recipient_id ∈ userIds then
    let r : ExchangeRequest :=
      ⟨nextId db, book_id, callerId, recipient_id, "pending", now⟩
    (⟨201, some r, none, ["exchange_request_created"]⟩, db ++ [r])
  else
    (⟨500, none, some "Failed to create exchange request", []⟩, db)

/-! ## Books service (src/books-service/app.js) -/

/-- Outcome of PUT /books/:id/status, with explicit accounting of the
pool.connect and client.release calls executed on the taken path. -/
structure BookStatusResult where
  httpStatus : Nat
  record : Option Book
  errorBody : Option String
  db : List Book
  connectionsAcquired : Nat
  connectionsReleased : Nat
deriving Repr, DecidableEq

/-- PUT /books/:id/status. The handler acquires a client and runs
UPDATE books SET status=$1 WHERE id=$2 AND owner_id=$3 RETURNING *
against a status column declared VARCHAR(20). On rowCount = 0 it returns
404 before ever reaching client.release(). When rows do match and the
new status exceeds 20 characters, assigning the value to the VARCHAR(20)
column raises (value too long, code 22001), the transaction aborts
leaving the table unchanged, and the catch block answers 500 — again
without reaching client.release(). Only the bounded success path
releases the connection. -/
def updateBookStatus (db : List Book) (callerId bookId : Nat)
    (newStatus : String) : BookStatusResult :=
  match (db.filter fun b => b.id == bookId && b.owner_id == callerId).map
      (fun b => { b with status := newStatus }) with
  | [] =>
      ⟨404, none, some "Book not found or unauthorized",
       db.map fun b =>
         if b.id == bookId && b.owner_id == callerId then
           { b with status := newStatus }
         else b,
       1, 0⟩
  | b :: _ =>
      if newStatus.length ≤ 20 then
        ⟨200, some b, none,
         db.map fun b =>
           if b.id == bookId && b.owner_id == callerId then
             { b with status := newStatus }
           else b,
         1, 1⟩
      else
        ⟨500, none, some "Failed to update book status", db, 1, 0⟩

/-! ## Auth service (src/auth-service/app.js) -/

/-- The shared hard-coded signing key of all services. -/
def SECRET_KEY : String := "PDiddy_party"

/-- Decoded JWT payload: jwt.sign stores id and username and the library
adds the expiry timestamp. -/
structure JwtPayload where
  id : Nat
  username : String
  exp : Nat
deriving Repr, DecidableEq

/-- A token input as the validate endpoint can receive it: missing,
arbitrary garbage, or a structurally well-formed JWT signed with some key
and carrying an expiry timestamp (seconds). -/
inductive TokenValue where
  | absent : TokenValue
  | malformed (raw : String) : TokenValue
  | signed (id : Nat) (username : String) (exp : Nat) (key : String) : TokenValue
deriving Repr, DecidableEq

/-- jwt.sign(\x7b id, username \x7d, key, \x7b expiresIn: "1h" \x7d):
expiry is one hour (3600 s) after the issue instant. -/
def jwtSign (id : Nat) (username : String) (key : String) (now : Nat) :
    TokenValue :=
  .signed id username (now + 3600) key

/-- jwt.verify(token, key) at clock instant now: succeeds exactly on a
well-formed token signed with the same key whose expiry lies in the
future; on anything else the library raises, modelled as none. -/
def jwtVerify (t : TokenValue) (key : String) (now : Nat) :
    Option JwtPayload :=
  match t with
  | .signed id username exp k =>
      if k = key ∧ now < exp then some ⟨id, username, exp⟩ else none
  | _ => none

/-- Response of POST /validate. -/
structure ValidateResult where
  httpStatus : Nat
  valid : Bool
  user : Option JwtPayload
deriving Repr, DecidableEq

/-- POST /validate: wraps jwt.verify in try/catch and always answers 200,
with valid:true and the decoded payload on success and valid:false
otherwise. -/
def validateToken (t : TokenValue) (now : Nat) : ValidateResult :=
  match jwtVerify t SECRET_KEY now with
  | some p => ⟨200, true, some p⟩
  | none => ⟨200, false, none⟩

/-- bcrypt is an external collaborator; its hash is modelled as an
injective tagging of the password. -/
def bcryptHash (password : String) : String :=
  "bcrypt." ++ password

/-- bcrypt.compare(password, hash). -/
def bcryptCompare (password hash : String) : Bool :=
  hash == bcryptHash password

/-- Response of a login endpoint. -/
structure LoginResult where
  httpStatus : Nat
  errorBody : Option String
  token : Option TokenValue
deriving Repr, DecidableEq

/-- POST /login of the auth service: SELECT * FROM users WHERE
username = $1; an empty result and a failed bcrypt comparison both answer
401 with the same body "Invalid credentials"; otherwise a one-hour token
for the matched user id is issued. -/
def authLogin (users : List User) (username password : String) (now : Nat) :
    LoginResult :=
  match users.find? (fun u => u.username == username) with
  | none => ⟨401, some "Invalid credentials", none⟩
  | some user =>
      if bcryptCompare password user.passwordHash then
        ⟨200, none, some (jwtSign user.id username SECRET_KEY now)⟩
      else
        ⟨401, some "Invalid credentials", none⟩

/-- POST /login of the legacy monolith (src/app.js): an unknown username
answers 400 with body "Пользователь не найден" while a wrong password for
an existing username answers 400 with body "Неверный пароль". -/
def legacyLogin (users : List User) (username password : String)
    (now : Nat) : LoginResult :=
  match users.find? (fun u => u.username == username) with
  | none => ⟨400, some "Пользователь не найден", none⟩
  | some user =>
      if bcryptCompare password user.passwordHash then
        ⟨200, none, some (jwtSign user.id user.username SECRET_KEY now)⟩
      else
        ⟨400, some "Неверный пароль", none⟩

/-- SERIAL id for the users table. -/
def nextUserId (users : List User) : Nat :=
  (users.foldl (fun m u => max m u.id) 0) + 1

/-- Response of POST /register. -/
structure RegisterResult where
  httpStatus : Nat
  errorBody : Option String
  token : Option TokenValue
  user : Option User
  users : List User
deriving Repr, DecidableEq

/-- POST /register: the UNIQUE constraints on username and email turn a
duplicate into error code 23505, answered as 400; otherwise the user row
is inserted and a one-hour token for the fresh id is issued with 201. -/
def authRegister (users : List User) (username password email : String)
    (now : Nat) : RegisterResult :=
  if ∃ u ∈ users, u.username = username ∨ u.email = email then
    ⟨400, some "User already exists", none, none, users⟩
  else
    let u : User := ⟨nextUserId users, username, bcryptHash password, email⟩
    ⟨201, none, some (jwtSign u.id username SECRET_KEY now), some u,
      users ++ [u]⟩

/-- Outcome of DELETE /delete-user/:id with connection accounting. -/
structure DeleteUserResult where
  httpStatus : Nat
  message : String
  users : List User
  connectionsAcquired : Nat
  connectionsReleased : Nat
deriving Repr, DecidableEq

/-- DELETE /delete-user/:id: a non-self target answers 403 before any
connection is acquired; then the handler acquires a client, and when the
SELECT finds no row it returns 404 before ever reaching client.release();
only the successful delete path releases the connection. -/
def deleteUser (users : List User) (callerId targetId : Nat) :
    DeleteUserResult :=
  if callerId ≠ targetId then
    ⟨403, "You are not allowed to delete this user", users, 0, 0⟩
  else
    match users.find? (fun u => u.id == targetId) with
    | none => ⟨404, "User not found", users, 1, 0⟩
    | some _ =>
        ⟨200, "User deleted successfully",
          users.filter (fun u => u.id != targetId), 1, 1⟩

/-! ## Lemmas about the conditional UPDATE -/

lemma cond_update_id (cond : ExchangeRequest → Bool) (s : String)
    (x : ExchangeRequest) :
    (if cond x then { x with status := s } else x).id = x.id := by
  split <;> rfl

lemma filter_eq_singleton (db : List ExchangeRequest)
    (hwf : db.Pairwise (fun a b => a.id ≠ b.id))
    (r : ExchangeRequest) (hr : r ∈ db) (cond : ExchangeRequest → Bool)
    (hid : ∀ x, cond x = true → x.id = r.id) (hcr : cond r = true) :
    db.filter cond = [r] := by
  induction db with
  | nil => cases hr
  | cons a tl ih =>
      rw [List.pairwise_cons] at hwf
      rcases List.mem_cons.mp hr with h | h
      · subst h
        rw [List.filter_cons_of_pos hcr]
        have : tl.filter cond = [] := by
          rw [List.filter_eq_nil_iff]
          intro x hx hpx
          exact hwf.1 x hx (hid x hpx).symm
        rw [this]
      · have ha : cond a = false := by
          rcases hca : cond a with _ | _
          · rfl
          · exact absurd (hid a hca) (hwf.1 r h)
        rw [List.filter_cons_of_neg (by simp [ha])]
        exact ih hwf.2 h

lemma eq_of_mem_of_id_eq (db : List ExchangeRequest)
    (hwf : db.Pairwise (fun a b => a.id ≠ b.id))
    (r x : ExchangeRequest) (hr : r ∈ db) (hx : x ∈ db)
    (hid : x.id = r.id) : x = r := by
  by_contra hne
  have hsymm : Symmetric (fun a b : ExchangeRequest => a.id ≠ b.id) :=
    fun a b h => h.symm
  exact absurd hid (hwf.forall hsymm hx hr hne)

lemma exchangeTransition_success (db : List ExchangeRequest)
    (hwf : db.Pairwise (fun a b => a.id ≠ b.id)) (r : ExchangeRequest)
    (hr : r ∈ db) (cond : ExchangeRequest → Bool)
    (hid : ∀ x, cond x = true → x.id = r.id) (hcr : cond r = true)
    (st ev : String) :
    exchangeTransition cond st ev db =
      (⟨200, some { r with status := st }, none, [ev]⟩,
       db.map fun x => if cond x then { x with status := st } else x) := by
  unfold exchangeTransition
  rw [filter_eq_singleton db hwf r hr cond hid hcr]
  rfl

lemma exchangeTransition_failure (db : List ExchangeRequest)
    (cond : ExchangeRequest → Bool) (h : ∀ x ∈ db, cond x = false)
    (st ev : String) :
    exchangeTransition cond st ev db =
      (⟨404, none, some "Request not found or unauthorized action", []⟩,
       db) := by
  have hfil : db.filter cond = [] := by
    rw [List.filter_eq_nil_iff]
    intro a ha
    simp [h a ha]
  have hmap :
      (db.map fun x => if cond x then { x with status := st } else x) = db := by
    conv_rhs => rw [← List.map_id db]
    exact List.map_congr_left fun a ha => by simp [h a ha]
  unfold exchangeTransition
  rw [hfil, hmap]
  rfl

lemma exchangeTransition_state (cond : ExchangeRequest → Bool)
    (st ev : String) (db : List ExchangeRequest) :
    (exchangeTransition cond st ev db).2 =
      db.map fun x => if cond x then { x with status := st } else x := by
  unfold exchangeTransition
  cases h : (db.filter cond).map (fun r => { r with status := st }) <;> rfl

lemma distinctIds_map_update (db : List ExchangeRequest)
    (hwf : db.Pairwise (fun a b => a.id ≠ b.id))
    (cond : ExchangeRequest → Bool) (st : String) :
    (db.map fun x => if cond x then { x with status := st } else x).Pairwise
      (fun a b => a.id ≠ b.id) := by
  rw [List.pairwise_map]
  refine hwf.imp ?_
  intro a b hab
  simpa only [cond_update_id] using hab

lemma frame_at (db : List ExchangeRequest) (cond : ExchangeRequest → Bool)
    (st : String) (i : Nat) (r : ExchangeRequest) (h : db[i]? = some r) :
    ∃ ra,
      (db.map fun x => if cond x then { x with status := st } else x)[i]? =
        some ra ∧
      ra.id = r.id ∧ ra.book_id = r.book_id ∧ ra.sender_id = r.sender_id ∧
      ra.recipient_id = r.recipient_id ∧ ra.created_at = r.created_at ∧
      (cond r = true → ra.status = st) ∧ (cond r = false → ra = r) := by
  refine ⟨if cond r then { r with status := st } else r,
    ?_, ?_, ?_, ?_, ?_, ?_, ?_, ?_⟩
  · rw [List.getElem?_map, h]
    rfl
  all_goals cases hc : cond r <;> simp [hc]

/-! ## Claim theorems for the exchange lifecycle -/

/-- C1: for every exchange request whose recipient is the caller, approve
answers 200 with the record at status "approved" and emits
exchange_approved, whatever the prior status was; a second approve by the
same recipient on the already-approved request again answers 200 with
status "approved" and re-emits the notification. -/
theorem approve_always_succeeds_and_is_repeatable
    (db : List ExchangeRequest) (callerId : Nat) (r : ExchangeRequest)
    (hwf : DistinctIds db) (hr : r ∈ db)
    (hrec : r.recipient_id = callerId) :
    (approveRequest db callerId r.id).1.httpStatus = 200 ∧
    (approveRequest db callerId r.id).1.record =
      some { r with status := "approved" } ∧
    (approveRequest db callerId r.id).1.emitted = ["exchange_approved"] ∧
    (approveRequest (approveRequest db callerId r.id).2 callerId
      r.id).1.httpStatus = 200 ∧
    (approveRequest (approveRequest db callerId r.id).2 callerId
      r.id).1.record = some { r with status := "approved" } ∧
    (approveRequest (approveRequest db callerId r.id).2 callerId
      r.id).1.emitted = ["exchange_approved"] := by
  have hid : ∀ x, approveCond r.id callerId x = true → x.id = r.id := by
    intro x hx
    simp only [approveCond, Bool.and_eq_true, beq_iff_eq] at hx
    exact hx.1
  have hcr : approveCond r.id callerId r = true := by
    simp [approveCond, hrec]
  have h1 := exchangeTransition_success db hwf r hr _ hid hcr
    "approved" "exchange_approved"
  have hdb1 : (approveRequest db callerId r.id).2 =
      db.map fun x =>
        if approveCond r.id callerId x then { x with status := "approved" }
        else x := by
    rw [approveRequest, h1]
  have hwf1 :
      ((approveRequest db callerId r.id).2).Pairwise
        (fun a b => a.id ≠ b.id) := by
    rw [hdb1]
    exact distinctIds_map_update db hwf _ _
  have hr1 : ({ r with status := "approved" } : ExchangeRequest) ∈
      (approveRequest db callerId r.id).2 := by
    rw [hdb1]
    exact List.mem_map.mpr ⟨r, hr, by simp [hcr]⟩
  have h2 := exchangeTransition_success
    ((approveRequest db callerId r.id).2) hwf1
    ({ r with status := "approved" }) hr1
    (approveCond r.id callerId) hid hcr "approved" "exchange_approved"
  have h1e : approveRequest db callerId r.id =
      (⟨200, some { r with status := "approved" }, none,
        ["exchange_approved"]⟩,
       db.map fun x =>
         if approveCond r.id callerId x then { x with status := "approved" }
         else x) := h1
  have h2e : approveRequest (approveRequest db callerId r.id).2 callerId
      r.id =
      (⟨200, some { r with status := "approved" }, none,
        ["exchange_approved"]⟩,
       ((approveRequest db callerId r.id).2).map fun x =>
         if approveCond r.id callerId x then { x with status := "approved" }
         else x) := h2
  exact ⟨by rw [h1e], by rw [h1e], by rw [h1e],
    by rw [h2e], by rw [h2e], by rw [h2e]⟩

/-- Witness for C1 at a concrete one-row table: the first and the second
approve by recipient 4 both answer 200. -/
theorem approve_always_succeeds_and_is_repeatable_witness :
    (approveRequest [⟨1, 2, 3, 4, "pending", 0⟩] 4 1).1.httpStatus = 200 ∧
    (approveRequest (approveRequest [⟨1, 2, 3, 4, "pending", 0⟩] 4 1).2 4
      1).1.httpStatus = 200 := by
  have h := approve_always_succeeds_and_is_repeatable
    [⟨1, 2, 3, 4, "pending", 0⟩] 4 ⟨1, 2, 3, 4, "pending", 0⟩
    (by simp [DistinctIds]) (by simp) rfl
  exact ⟨h.1, h.2.2.2.1⟩

/-- C3: complete answers 200 with the record at status "completed" for a
caller who is sender or recipient of the request, whatever the prior
status; for a caller party to no row with the given id it answers 404 and
leaves the table unchanged. -/
theorem complete_spec (db : List ExchangeRequest) (callerId : Nat)
    (hwf : DistinctIds db) :
    (∀ r ∈ db, (r.sender_id = callerId ∨ r.recipient_id = callerId) →
      (completeRequest db callerId r.id).1.httpStatus = 200 ∧
      (completeRequest db callerId r.id).1.record =
        some { r with status := "completed" } ∧
      (completeRequest db callerId r.id).1.emitted =
        ["exchange_completed"]) ∧
    (∀ requestId : Nat,
      (∀ r ∈ db, r.id = requestId →
        r.sender_id ≠ callerId ∧ r.recipient_id ≠ callerId) →
      (completeRequest db callerId requestId).1.httpStatus = 404 ∧
      (completeRequest db callerId requestId).1.record = none ∧
      (completeRequest db callerId requestId).2 = db) := by
  constructor
  · intro r hr hrole
    have hid : ∀ x, completeCond r.id callerId x = true → x.id = r.id := by
      intro x hx
      simp only [completeCond, Bool.and_eq_true, beq_iff_eq] at hx
      exact hx.1
    have hcr : completeCond r.id callerId r = true := by
      rcases hrole with h | h <;> simp [completeCond, h]
    have h := exchangeTransition_success db hwf r hr _ hid hcr
      "completed" "exchange_completed"
    refine ⟨?_, ?_, ?_⟩ <;> simp [completeRequest, h]
  · intro requestId hnone
    have hco : ∀ x ∈ db, completeCond requestId callerId x = false := by
      intro x hx
      by_cases hxid : x.id = requestId
      · obtain ⟨h1, h2⟩ := hnone x hx hxid
        simp [completeCond, hxid, h1, h2]
      · simp [completeCond, hxid]
    have h := exchangeTransition_failure db _ hco
      "completed" "exchange_completed"
    refine ⟨?_, ?_, ?_⟩ <;> simp [completeRequest, h]

/-- Witness for C3: the sender completes a pending request with 200, and
an outsider gets 404 with the table unchanged. -/
theorem complete_spec_witness :
    (completeRequest [⟨1, 2, 3, 4, "pending", 0⟩] 3 1).1.httpStatus = 200 ∧
    (completeRequest [⟨1, 2, 3, 4, "pending", 0⟩] 9 1).1.httpStatus = 404 ∧
    (completeRequest [⟨1, 2, 3, 4, "pending", 0⟩] 9 1).2 =
      [⟨1, 2, 3, 4, "pending", 0⟩] := by
  have hs := (complete_spec [⟨1, 2, 3, 4, "pending", 0⟩] 3
    (by simp [DistinctIds])).1 ⟨1, 2, 3, 4, "pending", 0⟩ (by simp)
    (Or.inl rfl)
  have hf := (complete_spec [⟨1, 2, 3, 4, "pending", 0⟩] 9
    (by simp [DistinctIds])).2 1 (by intro r hr hid; constructor <;> simp_all)
  exact ⟨hs.1, hf.1, hf.2.2⟩

/-- C4: a reject call by the sender of a request who is not its recipient
answers 404 with no record and no emitted event, and the table — every
field of every row — is exactly what it was before the call. -/
theorem reject_by_sender_is_not_found
    (db : List ExchangeRequest) (callerId : Nat) (r : ExchangeRequest)
    (hwf : DistinctIds db) (hr : r ∈ db)
    (hs : r.sender_id = callerId) (hnr : r.recipient_id ≠ callerId) :
    (rejectRequest db callerId r.id).1.httpStatus = 404 ∧
    (rejectRequest db callerId r.id).1.record = none ∧
    (rejectRequest db callerId r.id).1.emitted = [] ∧
    (rejectRequest db callerId r.id).2 = db := by
  have hco : ∀ x ∈ db, rejectCond r.id callerId x = false := by
    intro x hx
    by_cases hxid : x.id = r.id
    · have hxr : x = r := eq_of_mem_of_id_eq db hwf r x hr hx hxid
      subst hxr
      simp [rejectCond, hnr]
    · simp [rejectCond, hxid]
  have h := exchangeTransition_failure db _ hco "rejected" "exchange_rejected"
  refine ⟨?_, ?_, ?_, ?_⟩ <;> simp [rejectRequest, h]

/-- Witness for C4: sender 3 rejecting request 1 (recipient 4) gets 404
and the row keeps status "pending". -/
theorem reject_by_sender_is_not_found_witness :
    (rejectRequest [⟨1, 2, 3, 4, "pending", 0⟩] 3 1).1.httpStatus = 404 ∧
    (rejectRequest [⟨1, 2, 3, 4, "pending", 0⟩] 3 1).2 =
      [⟨1, 2, 3, 4, "pending", 0⟩] := by
  have h := reject_by_sender_is_not_found [⟨1, 2, 3, 4, "pending", 0⟩] 3
    ⟨1, 2, 3, 4, "pending", 0⟩ (by simp [DistinctIds]) (by simp) rfl
    (by decide)
  exact ⟨h.1, h.2.2.2⟩

/-- C10: each of approve, complete and reject maps the table pointwise:
at every position the row keeps its id, book_id, sender_id, recipient_id
and created_at; a row matched by the WHERE clause gets exactly the new
status and an unmatched row is unchanged in all fields. -/
theorem transitions_change_only_status
    (db : List ExchangeRequest) (callerId requestId i : Nat)
    (r : ExchangeRequest) (h : db[i]? = some r) :
    (∃ ra, (approveRequest db callerId requestId).2[i]? = some ra ∧
      ra.id = r.id ∧ ra.book_id = r.book_id ∧ ra.sender_id = r.sender_id ∧
      ra.recipient_id = r.recipient_id ∧ ra.created_at = r.created_at ∧
      (approveCond requestId callerId r = true → ra.status = "approved") ∧
      (approveCond requestId callerId r = false → ra = r)) ∧
    (∃ rc, (completeRequest db callerId requestId).2[i]? = some rc ∧
      rc.id = r.id ∧ rc.book_id = r.book_id ∧ rc.sender_id = r.sender_id ∧
      rc.recipient_id = r.recipient_id ∧ rc.created_at = r.created_at ∧
      (completeCond requestId callerId r = true → rc.status = "completed") ∧
      (completeCond requestId callerId r = false → rc = r)) ∧
    (∃ rr, (rejectRequest db callerId requestId).2[i]? = some rr ∧
      rr.id = r.id ∧ rr.book_id = r.book_id ∧ rr.sender_id = r.sender_id ∧
      rr.recipient_id = r.recipient_id ∧ rr.created_at = r.created_at ∧
      (rejectCond requestId callerId r = true → rr.status = "rejected") ∧
      (rejectCond requestId callerId r = false → rr = r)) := by
  refine ⟨?_, ?_, ?_⟩
  · rw [approveRequest, exchangeTransition_state]
    exact frame_at db _ "approved" i r h
  · rw [completeRequest, exchangeTransition_state]
    exact frame_at db _ "completed" i r h
  · rw [rejectRequest, exchangeTransition_state]
    exact frame_at db _ "rejected" i r h

/-- Witness for C10 at a one-row table and a non-matching caller. -/
theorem transitions_change_only_status_witness :
    ∃ ra, (approveRequest [⟨1, 2, 3, 4, "pending", 0⟩] 9 1).2[0]? =
      some ra ∧ ra.id = 1 ∧ ra.book_id = 2 ∧ ra.sender_id = 3 ∧
      ra.recipient_id = 4 ∧ ra.created_at = 0 ∧
      (approveCond 1 9 ⟨1, 2, 3, 4, "pending", 0⟩ = true →
        ra.status = "approved") ∧
      (approveCond 1 9 ⟨1, 2, 3, 4, "pending", 0⟩ = false →
        ra = ⟨1, 2, 3, 4, "pending", 0⟩) :=
  (transitions_change_only_status [⟨1, 2, 3, 4, "pending", 0⟩] 9 1 0
    ⟨1, 2, 3, 4, "pending", 0⟩ rfl).1

/-! ## Claim theorems for create, the books service and the auth service -/

/-- C2 counterexample: with an empty books table, create by user 1 for
recipient 2 with dangling book_id 7 hits the declared foreign-key
constraint, so the handler answers 500 — not 201 — and inserts nothing. -/
theorem create_with_dangling_book_fails :
    (createRequest [] [1, 2] [] 1 7 2 0).1.httpStatus = 500 ∧
    (createRequest [] [1, 2] [] 1 7 2 0).1.httpStatus ≠ 201 ∧
    (createRequest [] [1, 2] [] 1 7 2 0).1.record = none ∧
    (createRequest [] [1, 2] [] 1 7 2 0).2 = [] := by
  decide

/-- C2 amended: whenever book_id names an existing book — whoever owns
it — and the caller and recipient name existing users, create inserts a
row with status "pending" and sender_id equal to the caller and answers
201 with that row, emitting the creation event. -/
theorem create_inserts_pending_when_refs_exist
    (books : List Book) (userIds : List Nat) (db : List ExchangeRequest)
    (callerId book_id recipient_id now : Nat)
    (hb : ∃ b ∈ books, b.id = book_id) (hc : callerId ∈ userIds)
    (hrcp : recipient_id ∈ userIds) :
    (createRequest books userIds db callerId book_id recipient_id
      now).1.httpStatus = 201 ∧
    (createRequest books userIds db callerId book_id recipient_id
      now).1.record =
      some ⟨nextId db, book_id, callerId, recipient_id, "pending", now⟩ ∧
    (createRequest books userIds db callerId book_id recipient_id
      now).1.emitted = ["exchange_request_created"] ∧
    (createRequest books userIds db callerId book_id recipient_id
      now).2 =
      db ++ [⟨nextId db, book_id, callerId, recipient_id, "pending", now⟩] := by
  unfold createRequest
  split
  · exact ⟨rfl, rfl, rfl, rfl⟩
  · rename_i hcond
    exact absurd ⟨hb, hc, hrcp⟩ hcond

/-- Witness for the amended C2: the referenced book is owned by user 99,
not by the calling sender 1, and the insert still succeeds. -/
theorem create_inserts_pending_when_refs_exist_witness :
    (createRequest [⟨7, "t", "a", 99, "available", 0⟩] [1, 2] [] 1 7 2
      5).1.httpStatus = 201 ∧
    (createRequest [⟨7, "t", "a", 99, "available", 0⟩] [1, 2] [] 1 7 2
      5).1.record = some ⟨1, 7, 1, 2, "pending", 5⟩ := by
  have h := create_inserts_pending_when_refs_exist
    [⟨7, "t", "a", 99, "available", 0⟩] [1, 2] [] 1 7 2 5
    ⟨⟨7, "t", "a", 99, "available", 0⟩, by simp, rfl⟩ (by simp) (by simp)
  exact ⟨h.1, h.2.1⟩

lemma jwtVerify_signed (id : Nat) (username : String) (exp : Nat)
    (k key : String) (now : Nat) :
    jwtVerify (.signed id username exp k) key now =
      if k = key ∧ now < exp then some ⟨id, username, exp⟩ else none := rfl

/-- C5: validate answers 200 on every input; valid is true exactly when
the token is well formed, signed with the shared key, and unexpired, and
false in every other case, with the decoded payload echoed back. -/
theorem validate_never_errors (t : TokenValue) (now : Nat) :
    (validateToken t now).httpStatus = 200 ∧
    ((validateToken t now).valid = true ↔
      ∃ id username exp,
        t = TokenValue.signed id username exp SECRET_KEY ∧ now < exp) ∧
    ((validateToken t now).valid = false ↔
      ¬ ∃ id username exp,
        t = TokenValue.signed id username exp SECRET_KEY ∧ now < exp) ∧
    (validateToken t now).user = jwtVerify t SECRET_KEY now := by
  have hstat : (validateToken t now).httpStatus = 200 := by
    unfold validateToken
    cases h : jwtVerify t SECRET_KEY now <;> rfl
  have huser : (validateToken t now).user = jwtVerify t SECRET_KEY now := by
    unfold validateToken
    cases h : jwtVerify t SECRET_KEY now <;> rfl
  have hv : (validateToken t now).valid = true ↔
      ∃ id username exp,
        t = TokenValue.signed id username exp SECRET_KEY ∧ now < exp := by
    cases t with
    | absent =>
        constructor
        · intro h
          cases h
        · rintro ⟨id, u, e, heq, _⟩
          cases heq
    | malformed raw =>
        constructor
        · intro h
          cases h
        · rintro ⟨id, u, e, heq, _⟩
          cases heq
    | signed id username exp key =>
        by_cases h : key = SECRET_KEY ∧ now < exp
        · have heval :
              validateToken (.signed id username exp key) now =
                ⟨200, true, some ⟨id, username, exp⟩⟩ := by
            unfold validateToken
            rw [jwtVerify_signed, if_pos h]
          rw [heval]
          constructor
          · intro _
            exact ⟨id, username, exp, by rw [h.1], h.2⟩
          · intro _
            rfl
        · have heval :
              validateToken (.signed id username exp key) now =
                ⟨200, false, none⟩ := by
            unfold validateToken
            rw [jwtVerify_signed, if_neg h]
          rw [heval]
          constructor
          · intro hh
            cases hh
          · rintro ⟨id2, u2, e2, heq, hlt⟩
            injection heq with e1 e2' e3 e4
            exact absurd ⟨e4, e3 ▸ hlt⟩ h
  refine ⟨hstat, hv, ?_, huser⟩
  rw [Bool.eq_false_iff]
  exact not_congr hv

/-- Verification outcome of a valid fresh signed token and of an expired
one; shared by the round-trip claim. -/
lemma validateToken_signed (id : Nat) (username : String)
    (exp checkAt : Nat) :
    (checkAt < exp →
      validateToken (.signed id username exp SECRET_KEY) checkAt =
        ⟨200, true, some ⟨id, username, exp⟩⟩) ∧
    (exp ≤ checkAt →
      validateToken (.signed id username exp SECRET_KEY) checkAt =
        ⟨200, false, none⟩) := by
  constructor
  · intro h
    unfold validateToken
    rw [jwtVerify_signed, if_pos ⟨rfl, h⟩]
  · intro h
    unfold validateToken
    rw [jwtVerify_signed, if_neg (fun hc => absurd hc.2 (Nat.not_lt.mpr h))]

/-- C6: a token issued by login (for the matched user) or by register
(for the freshly inserted user) validates before the one-hour expiry with
the issuing user id embedded in the payload, and fails validation once
the expiry has passed. -/
theorem issued_token_roundtrip
    (users : List User) (username password email : String)
    (issuedAt checkAt : Nat) :
    (∀ u : User,
      users.find? (fun x => x.username == username) = some u →
      bcryptCompare password u.passwordHash = true →
      (authLogin users username password issuedAt).token =
        some (jwtSign u.id username SECRET_KEY issuedAt) ∧
      (checkAt < issuedAt + 3600 →
        (validateToken (jwtSign u.id username SECRET_KEY issuedAt)
          checkAt).valid = true ∧
        (validateToken (jwtSign u.id username SECRET_KEY issuedAt)
          checkAt).user = some ⟨u.id, username, issuedAt + 3600⟩) ∧
      (issuedAt + 3600 ≤ checkAt →
        (validateToken (jwtSign u.id username SECRET_KEY issuedAt)
          checkAt).valid = false)) ∧
    ((¬ ∃ u ∈ users, u.username = username ∨ u.email = email) →
      (authRegister users username password email issuedAt).token =
        some (jwtSign (nextUserId users) username SECRET_KEY issuedAt) ∧
      (authRegister users username password email issuedAt).user =
        some ⟨nextUserId users, username, bcryptHash password, email⟩ ∧
      (checkAt < issuedAt + 3600 →
        (validateToken
          (jwtSign (nextUserId users) username SECRET_KEY issuedAt)
          checkAt).valid = true ∧
        (validateToken
          (jwtSign (nextUserId users) username SECRET_KEY issuedAt)
          checkAt).user =
          some ⟨nextUserId users, username, issuedAt + 3600⟩) ∧
      (issuedAt + 3600 ≤ checkAt →
        (validateToken
          (jwtSign (nextUserId users) username SECRET_KEY issuedAt)
          checkAt).valid = false)) := by
  constructor
  · intro u hfind hpw
    refine ⟨by simp [authLogin, hfind, hpw], ?_, ?_⟩
    · intro hlt
      have h := (validateToken_signed u.id username (issuedAt + 3600)
        checkAt).1 hlt
      unfold jwtSign
      rw [h]
      exact ⟨rfl, rfl⟩
    · intro hge
      have h := (validateToken_signed u.id username (issuedAt + 3600)
        checkAt).2 hge
      unfold jwtSign
      rw [h]
  · intro hno
    have hreg : authRegister users username password email issuedAt =
        ⟨201, none,
         some (jwtSign (nextUserId users) username SECRET_KEY issuedAt),
         some ⟨nextUserId users, username, bcryptHash password, email⟩,
         users ++ [⟨nextUserId users, username, bcryptHash password, email⟩]⟩ := by
      unfold authRegister
      rw [if_neg hno]
    refine ⟨by rw [hreg], by rw [hreg], ?_, ?_⟩
    · intro hlt
      have h := (validateToken_signed (nextUserId users) username
        (issuedAt + 3600) checkAt).1 hlt
      unfold jwtSign
      rw [h]
      exact ⟨rfl, rfl⟩
    · intro hge
      have h := (validateToken_signed (nextUserId users) username
        (issuedAt + 3600) checkAt).2 hge
      unfold jwtSign
      rw [h]

/-- Witness for C6: a token for alice issued at instant 0 validates at
instant 10 and fails at instant 3600. -/
theorem issued_token_roundtrip_witness :
    (authLogin [⟨1, "alice", bcryptHash "pw", "a@x"⟩] "alice" "pw"
      0).token = some (jwtSign 1 "alice" SECRET_KEY 0) ∧
    (validateToken (jwtSign 1 "alice" SECRET_KEY 0) 10).valid = true ∧
    (validateToken (jwtSign 1 "alice" SECRET_KEY 0) 3600).valid = false := by
  have h1 := (issued_token_roundtrip [⟨1, "alice", bcryptHash "pw", "a@x"⟩]
    "alice" "pw" "z@x" 0 10).1 ⟨1, "alice", bcryptHash "pw", "a@x"⟩
    (by decide) (by decide)
  have h2 := (issued_token_roundtrip [⟨1, "alice", bcryptHash "pw", "a@x"⟩]
    "alice" "pw" "z@x" 0 3600).1 ⟨1, "alice", bcryptHash "pw", "a@x"⟩
    (by decide) (by decide)
  exact ⟨h1.1, (h1.2.1 (by decide)).1, h2.2.2 (by decide)⟩

/-- C7 counterexample: in the legacy monolith login handler, a wrong
password on the registered username "alice" and an unknown username "bob"
both answer 400 but with different error bodies, so the caller can tell
whether the username is registered. -/
theorem legacy_login_leaks_username_existence :
    (legacyLogin [⟨1, "alice", bcryptHash "pw", "a@x"⟩] "alice" "bad"
      0).errorBody ≠
      (legacyLogin [⟨1, "alice", bcryptHash "pw", "a@x"⟩] "bob" "bad"
        0).errorBody ∧
    (legacyLogin [⟨1, "alice", bcryptHash "pw", "a@x"⟩] "alice" "bad"
      0).httpStatus = 400 ∧
    (legacyLogin [⟨1, "alice", bcryptHash "pw", "a@x"⟩] "bob" "bad"
      0).httpStatus = 400 := by
  decide

/-- C7 amended: in the auth-service login handler the two failures are
indistinguishable — an existing username with a wrong password and an
unknown username both answer 401 with body "Invalid credentials" and no
token. -/
theorem auth_login_failures_indistinguishable
    (users : List User) (uname1 p1 uname2 p2 : String) (now : Nat)
    (u : User)
    (hfind : users.find? (fun x => x.username == uname1) = some u)
    (hpw : bcryptCompare p1 u.passwordHash = false)
    (hnone : users.find? (fun x => x.username == uname2) = none) :
    (authLogin users uname1 p1 now).httpStatus =
      (authLogin users uname2 p2 now).httpStatus ∧
    (authLogin users uname1 p1 now).errorBody =
      (authLogin users uname2 p2 now).errorBody ∧
    (authLogin users uname1 p1 now).httpStatus = 401 ∧
    (authLogin users uname1 p1 now).errorBody =
      some "Invalid credentials" ∧
    (authLogin users uname1 p1 now).token = none ∧
    (authLogin users uname2 p2 now).token = none := by
  have h1 : authLogin users uname1 p1 now =
      ⟨401, some "Invalid credentials", none⟩ := by
    simp [authLogin, hfind, hpw]
  have h2 : authLogin users uname2 p2 now =
      ⟨401, some "Invalid credentials", none⟩ := by
    simp [authLogin, hnone]
  rw [h1, h2]
  exact ⟨rfl, rfl, rfl, rfl, rfl, rfl⟩

/-- Witness for the amended C7 at a one-user table. -/
theorem auth_login_failures_indistinguishable_witness :
    (authLogin [⟨1, "alice", bcryptHash "pw", "a@x"⟩] "alice" "bad"
      0).httpStatus =
      (authLogin [⟨1, "alice", bcryptHash "pw", "a@x"⟩] "bob" "bad"
        0).httpStatus ∧
    (authLogin [⟨1, "alice", bcryptHash "pw", "a@x"⟩] "alice" "bad"
      0).errorBody =
      (authLogin [⟨1, "alice", bcryptHash "pw", "a@x"⟩] "bob" "bad"
        0).errorBody := by
  have h := auth_login_failures_indistinguishable
    [⟨1, "alice", bcryptHash "pw", "a@x"⟩] "alice" "bad" "bob" "bad" 0
    ⟨1, "alice", bcryptHash "pw", "a@x"⟩ (by decide) (by decide) (by decide)
  exact ⟨h.1, h.2.1⟩

lemma bookFilter_eq_singleton (db : List Book)
    (hwf : db.Pairwise (fun a b => a.id ≠ b.id))
    (b : Book) (hb : b ∈ db) (cond : Book → Bool)
    (hid : ∀ x, cond x = true → x.id = b.id) (hcb : cond b = true) :
    db.filter cond = [b] := by
  induction db with
  | nil => cases hb
  | cons a tl ih =>
      rw [List.pairwise_cons] at hwf
      rcases List.mem_cons.mp hb with h | h
      · subst h
        rw [List.filter_cons_of_pos hcb]
        have : tl.filter cond = [] := by
          rw [List.filter_eq_nil_iff]
          intro x hx hpx
          exact hwf.1 x hx (hid x hpx).symm
        rw [this]
      · have ha : cond a = false := by
          rcases hca : cond a with _ | _
          · rfl
          · exact absurd (hid a hca) (hwf.1 b h)
        rw [List.filter_cons_of_neg (by simp [ha])]
        exact ih hwf.2 h

/-- C8 counterexample: the owner of book 1 submits a status of 21
characters; the VARCHAR(20) column rejects the value, so the handler
answers 500 — not 200 — and the row keeps its prior status, refuting the
claim that any string is accepted. -/
theorem long_status_is_not_accepted :
    (updateBookStatus [⟨1, "t", "a", 2, "available", 0⟩] 2 1
      "abcdefghijklmnopqrstu").httpStatus = 500 ∧
    (updateBookStatus [⟨1, "t", "a", 2, "available", 0⟩] 2 1
      "abcdefghijklmnopqrstu").httpStatus ≠ 200 ∧
    (updateBookStatus [⟨1, "t", "a", 2, "available", 0⟩] 2 1
      "abcdefghijklmnopqrstu").record = none ∧
    (updateBookStatus [⟨1, "t", "a", 2, "available", 0⟩] 2 1
      "abcdefghijklmnopqrstu").db = [⟨1, "t", "a", 2, "available", 0⟩] := by
  decide

/-- C8 amended: updateStatus on a book id that the caller does not own
(or that names no row) answers 404 and leaves every row unmodified; on a
book the caller owns, any string of at most 20 characters is stored as
the new status with 200 and no validation of its value, while a longer
string hits the VARCHAR(20) bound of the column, making the handler
answer 500 with the row unmodified. -/
theorem updateStatus_owner_only (db : List Book) (callerId bookId : Nat)
    (newStatus : String) (hwf : DistinctBookIds db) :
    ((∀ b ∈ db, ¬(b.id = bookId ∧ b.owner_id = callerId)) →
      (updateBookStatus db callerId bookId newStatus).httpStatus = 404 ∧
      (updateBookStatus db callerId bookId newStatus).record = none ∧
      (updateBookStatus db callerId bookId newStatus).db = db) ∧
    (∀ b ∈ db, b.id = bookId → b.owner_id = callerId →
      (newStatus.length ≤ 20 →
        (updateBookStatus db callerId bookId newStatus).httpStatus = 200 ∧
        (updateBookStatus db callerId bookId newStatus).record =
          some { b with status := newStatus }) ∧
      (20 < newStatus.length →
        (updateBookStatus db callerId bookId newStatus).httpStatus = 500 ∧
        (updateBookStatus db callerId bookId newStatus).record = none ∧
        (updateBookStatus db callerId bookId newStatus).db = db)) := by
  constructor
  · intro hno
    have hcond : ∀ x ∈ db,
        (x.id == bookId && x.owner_id == callerId) = false := by
      intro x hx
      by_cases h1 : x.id = bookId
      · have h2 : x.owner_id ≠ callerId := fun h2 => hno x hx ⟨h1, h2⟩
        simp [h1, h2]
      · simp [h1]
    have hfil :
        (db.filter fun x => x.id == bookId && x.owner_id == callerId) =
          [] := by
      rw [List.filter_eq_nil_iff]
      intro a ha
      simp [hcond a ha]
    have hmap :
        (db.map fun x =>
          if x.id == bookId && x.owner_id == callerId then
            { x with status := newStatus }
          else x) = db := by
      conv_rhs => rw [← List.map_id db]
      exact List.map_congr_left fun a ha => by simp [hcond a ha]
    unfold updateBookStatus
    rw [hfil, hmap]
    exact ⟨rfl, rfl, rfl⟩
  · intro b hb hbid howner
    have hfil :
        (db.filter fun x => x.id == bookId && x.owner_id == callerId) =
          [b] := by
      refine bookFilter_eq_singleton db hwf b hb _ ?_ ?_
      · intro x hx
        simp only [Bool.and_eq_true, beq_iff_eq] at hx
        rw [hx.1, hbid]
      · simp [hbid, howner]
    have hrun : updateBookStatus db callerId bookId newStatus =
        if newStatus.length ≤ 20 then
          ⟨200, some { b with status := newStatus }, none,
           db.map fun x =>
             if x.id == bookId && x.owner_id == callerId then
               { x with status := newStatus }
             else x,
           1, 1⟩
        else
          ⟨500, none, some "Failed to update book status", db, 1, 0⟩ := by
      unfold updateBookStatus
      rw [hfil]
      rfl
    constructor
    · intro hlen
      rw [hrun, if_pos hlen]
      exact ⟨rfl, rfl⟩
    · intro hlen
      rw [hrun, if_neg (Nat.not_le.mpr hlen)]
      exact ⟨rfl, rfl, rfl⟩

/-- Witness for the amended C8: non-owner 1 gets 404 leaving the table
intact; owner 2 stores an arbitrary 15-character status with 200, and a
21-character status gets 500 with the table intact. -/
theorem updateStatus_owner_only_witness :
    (updateBookStatus [⟨1, "t", "a", 2, "available", 0⟩] 1 1
      "x").httpStatus = 404 ∧
    (updateBookStatus [⟨1, "t", "a", 2, "available", 0⟩] 1 1 "x").db =
      [⟨1, "t", "a", 2, "available", 0⟩] ∧
    (updateBookStatus [⟨1, "t", "a", 2, "available", 0⟩] 2 1
      "anything-at-all").httpStatus = 200 ∧
    (updateBookStatus [⟨1, "t", "a", 2, "available", 0⟩] 2 1
      "anything-at-all").record =
      some ⟨1, "t", "a", 2, "anything-at-all", 0⟩ ∧
    (updateBookStatus [⟨1, "t", "a", 2, "available", 0⟩] 2 1
      "abcdefghijklmnopqrstu").httpStatus = 500 ∧
    (updateBookStatus [⟨1, "t", "a", 2, "available", 0⟩] 2 1
      "abcdefghijklmnopqrstu").db = [⟨1, "t", "a", 2, "available", 0⟩] := by
  have ha := (updateStatus_owner_only [⟨1, "t", "a", 2, "available", 0⟩]
    1 1 "x" (by simp [DistinctBookIds])).1 (by decide)
  have hs := (updateStatus_owner_only [⟨1, "t", "a", 2, "available", 0⟩]
    2 1 "anything-at-all" (by simp [DistinctBookIds])).2
    ⟨1, "t", "a", 2, "available", 0⟩ (by simp) rfl rfl
  have hl := (updateStatus_owner_only [⟨1, "t", "a", 2, "available", 0⟩]
    2 1 "abcdefghijklmnopqrstu" (by simp [DistinctBookIds])).2
    ⟨1, "t", "a", 2, "available", 0⟩ (by simp) rfl rfl
  exact ⟨ha.1, ha.2.2, (hs.1 (by decide)).1, (hs.1 (by decide)).2,
    (hl.2 (by decide)).1, (hl.2 (by decide)).2.2⟩

/-- C9: the not-found exits of the cited handlers terminate with the
acquired connection unreleased — PUT /books/1/status by a caller who does
not own book 1, and DELETE /delete-user/2 by user 2 when no row with id 2
exists, both answer 404 having acquired one connection and released
none. -/
theorem not_found_paths_leak_connections :
    (updateBookStatus [⟨1, "t", "a", 2, "available", 0⟩] 1 1
      "exchanged").httpStatus = 404 ∧
    (updateBookStatus [⟨1, "t", "a", 2, "available", 0⟩] 1 1
      "exchanged").connectionsAcquired = 1 ∧
    (updateBookStatus [⟨1, "t", "a", 2, "available", 0⟩] 1 1
      "exchanged").connectionsReleased = 0 ∧
    (deleteUser [⟨1, "alice", bcryptHash "pw", "a@x"⟩] 2 2).httpStatus =
      404 ∧
    (deleteUser [⟨1, "alice", bcryptHash "pw", "a@x"⟩] 2
      2).connectionsAcquired = 1 ∧
    (deleteUser [⟨1, "alice", bcryptHash "pw", "a@x"⟩] 2
      2).connectionsReleased = 0 := by
  decide

end BookService
